import Mathlib

/-!
# Verification of the Overtidskassa tax-withholding engine

A shallow embedding, over ℚ, of `lib/trekktabell.js` and `lib/tax-rates.js`
from the `overtidskassa` repository, followed by theorems settling the
specification's claims about the engine.

JavaScript numbers are modelled as exact rationals; `Math.round(x*100)/100`
is modelled by `round2` (round half toward positive infinity); thrown
errors are modelled with `Except CalcError`; the `Infinity` top-bracket
threshold is modelled as `Option ℚ` with `none` standing for infinity.
-/

deriving instance DecidableEq for Except

/-- `Math.round` on a rational: round half toward positive infinity. -/
def jsRound (x : ℚ) : ℤ := (x + 1/2).floor

/-- `Math.round(x * 100) / 100`, the 2-decimal output rounding. -/
def round2 (x : ℚ) : ℚ := (jsRound (x * 100) : ℚ) / 100

/-- `Math.round(x * 1000) / 1000`, the 3-decimal rate rounding. -/
def round3 (x : ℚ) : ℚ := (jsRound (x * 1000) : ℚ) / 1000

/-- The two error conditions thrown by the engine:
`Tax rates for year ... are not available` and
`Invalid or unsupported table number: ...`. -/
inductive CalcError where
  | unsupportedYear : CalcError
  | invalidTableCode : CalcError
deriving DecidableEq, Repr

/-- Table kind: `'fradrag'` (deduction) or `'tillegg'` (addition). -/
inductive TableKind where
  | fradrag : TableKind
  | tillegg : TableKind
deriving DecidableEq, Repr

/-- Result of `parseTableNumber`: `{ type, amount }`. -/
structure TableInfo where
  type : TableKind
  amount : ℚ
deriving DecidableEq, Repr

/-- One trinnskatt bracket `{ threshold, rate }`; `none` models the
`Infinity` threshold of the top bracket. -/
structure TaxBracket where
  threshold : Option ℚ
  rate : ℚ
deriving DecidableEq, Repr

/-- `minstefradrag: { rate, min, max }` from `tax-rates.js`. -/
structure MinstefradragRates where
  rate : ℚ
  min : ℚ
  max : ℚ
deriving DecidableEq, Repr

/-- `trygdeavgift: { rate, threshold }` from `tax-rates.js`. -/
structure TrygdeavgiftRates where
  rate : ℚ
  threshold : ℚ
deriving DecidableEq, Repr

/-- `alminneligInntekt: { rate }` from `tax-rates.js`. -/
structure AlminneligInntektRates where
  rate : ℚ
deriving DecidableEq, Repr

/-- The per-year constants object of `tax-rates.js`. -/
structure TaxRates where
  trinnskatt : List TaxBracket
  trygdeavgift : TrygdeavgiftRates
  alminneligInntekt : AlminneligInntektRates
  minstefradrag : MinstefradragRates
  personfradrag : ℚ
  withholdingMonths : ℚ
deriving DecidableEq, Repr

/-- `TAX_RATES[2026]` from `tax-rates.js`. -/
def rates2026 : TaxRates where
  trinnskatt :=
    [ { threshold := some 226100, rate := 0 }
    , { threshold := some 318300, rate := 0.017 }
    , { threshold := some 725050, rate := 0.040 }
    , { threshold := some 980100, rate := 0.137 }
    , { threshold := some 1467200, rate := 0.168 }
    , { threshold := none, rate := 0.178 } ]
  trygdeavgift := { rate := 0.076, threshold := 69650 }
  alminneligInntekt := { rate := 0.22 }
  minstefradrag := { rate := 0.46, min := 4000, max := 95700 }
  personfradrag := 114210
  withholdingMonths := 10.5

/-- `getTaxRates(year)` / `TAX_RATES[year]` lookup: 2026 is the only
registered year; a missing year is modelled as `none` (the JS throws). -/
def getTaxRates (year : ℕ) : Option TaxRates :=
  if year = 2026 then some rates2026 else none

/-- `parseTableNumber(tableNumber)` from `trekktabell.js`. -/
def parseTableNumber (tableNumber : ℤ) : Option TableInfo :=
  if 8000 ≤ tableNumber ∧ tableNumber ≤ 8400 then
    some { type := TableKind.fradrag, amount := ((tableNumber - 8000 : ℤ) : ℚ) * 1000 }
  else if 9010 ≤ tableNumber ∧ tableNumber ≤ 9400 then
    some { type := TableKind.tillegg, amount := ((tableNumber - 9000 : ℤ) : ℚ) * 1000 }
  else
    none

/-- `Math.min(annualIncome, bracket.threshold)` with an `Infinity`
threshold giving back `annualIncome`. -/
def bracketCap (annualIncome : ℚ) : Option ℚ → ℚ
  | none => annualIncome
  | some t => min annualIncome t

/-- The loop body of `calculateTrinnskatt`: walk the brackets carrying
`previousThreshold`, stopping when the income no longer reaches the
bracket (an `Infinity` threshold makes every later iteration stop). -/
def trinnskattGo (annualIncome previousThreshold : ℚ) : List TaxBracket → ℚ
  | [] => 0
  | bracket :: rest =>
    if annualIncome ≤ previousThreshold then 0
    else
      max 0 (bracketCap annualIncome bracket.threshold - previousThreshold) * bracket.rate +
        (match bracket.threshold with
          | none => 0
          | some t => trinnskattGo annualIncome t rest)

/-- `calculateTrinnskatt(annualIncome, brackets)` from `trekktabell.js`. -/
def calculateTrinnskatt (annualIncome : ℚ) (brackets : List TaxBracket) : ℚ :=
  trinnskattGo annualIncome 0 brackets

/-- The `minstefradrag` expression of `calculateAnnualTax` /
`calculateMonthlyWithholding`:
`Math.min(Math.max(annualGross * rate, min), max)`. -/
def minstefradragFor (rates : TaxRates) (annualGross : ℚ) : ℚ :=
  min (max (annualGross * rates.minstefradrag.rate) rates.minstefradrag.min)
    rates.minstefradrag.max

/-- The `tableAdjustment` expression: a fradrag amount is negated, a
tillegg amount is kept positive. -/
def tableAdjustment (tableInfo : TableInfo) : ℚ :=
  match tableInfo.type with
  | TableKind.fradrag => -tableInfo.amount
  | TableKind.tillegg => tableInfo.amount

/-- The `alminneligInntekt` expression:
`Math.max(0, annualGross - minstefradrag - personfradrag + tableAdjustment)`. -/
def alminneligInntektFor (rates : TaxRates) (tableInfo : TableInfo) (annualGross : ℚ) : ℚ :=
  max 0 (annualGross - minstefradragFor rates annualGross - rates.personfradrag +
    tableAdjustment tableInfo)

/-- The `trygdeavgift` expression:
`annualGross > threshold ? annualGross * rate : 0`. -/
def trygdeavgiftFor (rates : TaxRates) (annualGross : ℚ) : ℚ :=
  if rates.trygdeavgift.threshold < annualGross then
    annualGross * rates.trygdeavgift.rate
  else 0

/-- The shared annual-tax body of `calculateAnnualTax` and
`calculateMonthlyWithholding`: trinnskatt + trygdeavgift + inntektsskatt,
where inntektsskatt is `alminneligInntekt * rate`. -/
def annualTaxFor (rates : TaxRates) (tableInfo : TableInfo) (annualGross : ℚ) : ℚ :=
  calculateTrinnskatt annualGross rates.trinnskatt +
    trygdeavgiftFor rates annualGross +
    alminneligInntektFor rates tableInfo annualGross * rates.alminneligInntekt.rate

/-- `calculateAnnualTax(annualGross, tableNumber, taxYear)` from
`trekktabell.js`: rates lookup, table parsing, then the tax body. -/
def calculateAnnualTax (annualGross : ℚ) (tableNumber : ℤ) (taxYear : ℕ) :
    Except CalcError ℚ :=
  match getTaxRates taxYear with
  | none => Except.error CalcError.unsupportedYear
  | some rates =>
    match parseTableNumber tableNumber with
    | none => Except.error CalcError.invalidTableCode
    | some tableInfo => Except.ok (annualTaxFor rates tableInfo annualGross)

/-- `calculateMonthlyWithholding(monthlyGross, tableNumber, taxYear)` from
`trekktabell.js`: the same tax body at `monthlyGross * 12`, divided by
`withholdingMonths`. -/
def calculateMonthlyWithholding (monthlyGross : ℚ) (tableNumber : ℤ) (taxYear : ℕ) :
    Except CalcError ℚ :=
  match getTaxRates taxYear with
  | none => Except.error CalcError.unsupportedYear
  | some rates =>
    match parseTableNumber tableNumber with
    | none => Except.error CalcError.invalidTableCode
    | some tableInfo =>
      Except.ok (annualTaxFor rates tableInfo (monthlyGross * 12) / rates.withholdingMonths)

/-- The object returned by `calculateOvertimeTakeHome`.  Note: the source
returns exactly these nine fields and no `estimatedRefund` field. -/
structure OvertimeResult where
  grossPay : ℚ
  hourlyRate : ℚ
  overtimeRate : ℚ
  actualTax : ℚ
  takeHome : ℚ
  effectiveRate : ℚ
  withholding : ℚ
  takeHomeWithholding : ℚ
  effectiveRateWithholding : ℚ
deriving DecidableEq, Repr

/-- `calculateOvertimeTakeHome({yearlySalary, overtimeHours, tableNumber,
taxYear})` from `trekktabell.js`, with `HOURS_PER_YEAR = 1950` and
`OVERTIME_MULTIPLIER = 1.4`. -/
def calculateOvertimeTakeHome (yearlySalary overtimeHours : ℚ) (tableNumber : ℤ)
    (taxYear : ℕ) : Except CalcError OvertimeResult := do
  let hourlyRate := yearlySalary / 1950
  let overtimeRate := hourlyRate * 1.4
  let grossPay := overtimeHours * overtimeRate
  let normalMonthly := yearlySalary / 12
  let combinedMonthly := normalMonthly + grossPay
  let withholdingNormal ← calculateMonthlyWithholding normalMonthly tableNumber taxYear
  let withholdingCombined ← calculateMonthlyWithholding combinedMonthly tableNumber taxYear
  let withholdingOnOvertime := withholdingCombined - withholdingNormal
  let annualTaxNormal ← calculateAnnualTax yearlySalary tableNumber taxYear
  let annualTaxWithOvertime ← calculateAnnualTax (yearlySalary + grossPay) tableNumber taxYear
  let actualTaxOnOvertime := annualTaxWithOvertime - annualTaxNormal
  let takeHomeActual := grossPay - actualTaxOnOvertime
  let takeHomeWithholding := grossPay - withholdingOnOvertime
  let effectiveRateActual := if 0 < grossPay then actualTaxOnOvertime / grossPay else 0
  let effectiveRateWithholding := if 0 < grossPay then withholdingOnOvertime / grossPay else 0
  return { grossPay := round2 grossPay
         , hourlyRate := round2 hourlyRate
         , overtimeRate := round2 overtimeRate
         , actualTax := round2 actualTaxOnOvertime
         , takeHome := round2 takeHomeActual
         , effectiveRate := round3 effectiveRateActual
         , withholding := round2 withholdingOnOvertime
         , takeHomeWithholding := round2 takeHomeWithholding
         , effectiveRateWithholding := round3 effectiveRateWithholding }

/-- The `{ valid, errors }` object returned by `validateParameters`. -/
structure ValidationResult where
  valid : Bool
  errors : List String
deriving DecidableEq, Repr

/-- `validateParameters({yearlySalary, overtimeHours, tableNumber, taxYear})`
from `trekktabell.js`.  A JS `undefined`/`null`/non-number salary or hours
value is modelled as `none`; a missing `taxYear` (falsy, skipping the year
check) as `none`, and the JS falsy `0` year is treated like a present year
equal to `0`.  Errors accumulate in source order and
`valid = (errors.length === 0)`. -/
def validateParameters (yearlySalary overtimeHours : Option ℚ) (tableNumber : ℤ)
    (taxYear : Option ℕ) : ValidationResult :=
  let salaryErrors :=
    match yearlySalary with
    | none => ["Yearly salary must be provided as a number"]
    | some s =>
      if s < 100000 ∨ 5000000 < s then
        ["Yearly salary must be between 100,000 and 5,000,000 NOK"]
      else []
  let hoursErrors :=
    match overtimeHours with
    | none => ["Overtime hours must be zero or a positive number"]
    | some h => if h < 0 then ["Overtime hours must be zero or a positive number"] else []
  let highHoursErrors :=
    match overtimeHours with
    | none => []
    | some h => if 200 < h then ["Overtime hours seems unusually high (>200 hours)"] else []
  let tableErrors :=
    match parseTableNumber tableNumber with
    | none => ["Invalid table number. Must be 8000-8400 or 9010-9400"]
    | some _ => []
  let yearErrors :=
    match taxYear with
    | none => []
    | some y =>
      if y ≠ 0 ∧ getTaxRates y = none then
        ["Tax rates for year " ++ toString y ++ " are not available"]
      else []
  let errors := salaryErrors ++ hoursErrors ++ highHoursErrors ++ tableErrors ++ yearErrors
  { valid := errors.isEmpty, errors := errors }

/-! ## Inversion and equation lemmas -/

lemma getTaxRates_inv {y : ℕ} {r : TaxRates} (h : getTaxRates y = some r) :
    y = 2026 ∧ r = rates2026 := by
  unfold getTaxRates at h
  split_ifs at h with hy
  exact ⟨hy, (Option.some.injEq _ _).mp h |>.symm⟩

lemma parseTableNumber_inv {n : ℤ} {ti : TableInfo} (h : parseTableNumber n = some ti) :
    (8000 ≤ n ∧ n ≤ 8400 ∧ ti = ⟨TableKind.fradrag, ((n - 8000 : ℤ) : ℚ) * 1000⟩) ∨
    (9010 ≤ n ∧ n ≤ 9400 ∧ ti = ⟨TableKind.tillegg, ((n - 9000 : ℤ) : ℚ) * 1000⟩) := by
  unfold parseTableNumber at h
  split_ifs at h with h1 h2
  · exact Or.inl ⟨h1.1, h1.2, ((Option.some.injEq _ _).mp h).symm⟩
  · exact Or.inr ⟨h2.1, h2.2, ((Option.some.injEq _ _).mp h).symm⟩

lemma tableAdjustment_bounds {n : ℤ} {ti : TableInfo} (h : parseTableNumber n = some ti) :
    -400000 ≤ tableAdjustment ti ∧ tableAdjustment ti ≤ 400000 := by
  rcases parseTableNumber_inv h with ⟨h1, h2, rfl⟩ | ⟨h1, h2, rfl⟩
  · have ha : (8000 : ℚ) ≤ (n : ℚ) := by exact_mod_cast h1
    have hb : (n : ℚ) ≤ (8400 : ℚ) := by exact_mod_cast h2
    simp only [tableAdjustment]
    push_cast
    constructor <;> linarith
  · have ha : (9010 : ℚ) ≤ (n : ℚ) := by exact_mod_cast h1
    have hb : (n : ℚ) ≤ (9400 : ℚ) := by exact_mod_cast h2
    simp only [tableAdjustment]
    push_cast
    constructor <;> linarith

lemma fradrag_amount_nonneg {n : ℤ} {ti : TableInfo} (h : parseTableNumber n = some ti)
    (ht : ti.type = TableKind.fradrag) : 0 ≤ ti.amount := by
  rcases parseTableNumber_inv h with ⟨h1, _, rfl⟩ | ⟨_, _, rfl⟩
  · have ha : ((8000 : ℤ) : ℚ) ≤ (n : ℚ) := by exact_mod_cast h1
    push_cast at ha ⊢
    linarith
  · exact absurd ht (by simp)

lemma tillegg_amount_pos {n : ℤ} {ti : TableInfo} (h : parseTableNumber n = some ti)
    (ht : ti.type = TableKind.tillegg) : 10000 ≤ ti.amount := by
  rcases parseTableNumber_inv h with ⟨_, _, rfl⟩ | ⟨h1, _, rfl⟩
  · exact absurd ht (by simp)
  · have ha : ((9010 : ℤ) : ℚ) ≤ (n : ℚ) := by exact_mod_cast h1
    push_cast at ha ⊢
    linarith

lemma calculateAnnualTax_ok {n : ℤ} {ti : TableInfo} (g : ℚ)
    (h : parseTableNumber n = some ti) :
    calculateAnnualTax g n 2026 = Except.ok (annualTaxFor rates2026 ti g) := by
  simp [calculateAnnualTax, getTaxRates, h]

lemma calculateMonthlyWithholding_ok {n : ℤ} {ti : TableInfo} (g : ℚ)
    (h : parseTableNumber n = some ti) :
    calculateMonthlyWithholding g n 2026 =
      Except.ok (annualTaxFor rates2026 ti (g * 12) / rates2026.withholdingMonths) := by
  simp [calculateMonthlyWithholding, getTaxRates, h]

lemma rates2026_trinnskatt_rate_nonneg :
    ∀ br ∈ rates2026.trinnskatt, 0 ≤ br.rate := by
  intro br hbr
  fin_cases hbr <;> norm_num

lemma trinnskattGo_nonneg (a : ℚ) (l : List TaxBracket)
    (hl : ∀ br ∈ l, 0 ≤ br.rate) : ∀ prev : ℚ, 0 ≤ trinnskattGo a prev l := by
  induction l with
  | nil => intro prev; simp [trinnskattGo]
  | cons br rest ih =>
    intro prev
    have hbr : 0 ≤ br.rate := hl br (List.mem_cons_self br rest)
    have hrest : ∀ b ∈ rest, 0 ≤ b.rate := fun b hb => hl b (List.mem_cons_of_mem br hb)
    simp only [trinnskattGo]
    split
    · exact le_refl 0
    · have h1 : 0 ≤ max 0 (bracketCap a br.threshold - prev) * br.rate :=
        mul_nonneg (le_max_left 0 _) hbr
      rcases br with ⟨th, rate⟩
      cases th with
      | none => simpa using h1
      | some t =>
        have h2 := ih hrest t
        simp only at h1 h2 ⊢
        linarith

lemma bracketCap_mono {a b : ℚ} (hab : a ≤ b) (th : Option ℚ) :
    bracketCap a th ≤ bracketCap b th := by
  cases th with
  | none => exact hab
  | some t => exact min_le_min hab (le_refl t)

lemma trinnskattGo_mono {a b : ℚ} (hab : a ≤ b) (l : List TaxBracket)
    (hl : ∀ br ∈ l, 0 ≤ br.rate) : ∀ prev : ℚ, trinnskattGo a prev l ≤ trinnskattGo b prev l := by
  induction l with
  | nil => intro prev; simp [trinnskattGo]
  | cons br rest ih =>
    intro prev
    have hbr : 0 ≤ br.rate := hl br (List.mem_cons_self br rest)
    have hrest : ∀ x ∈ rest, 0 ≤ x.rate := fun x hx => hl x (List.mem_cons_of_mem br hx)
    simp only [trinnskattGo]
    by_cases hb : b ≤ prev
    · have ha : a ≤ prev := le_trans hab hb
      rw [if_pos ha, if_pos hb]
    · rw [if_neg hb]
      by_cases ha : a ≤ prev
      · rw [if_pos ha]
        have h1 : 0 ≤ max 0 (bracketCap b br.threshold - prev) * br.rate :=
          mul_nonneg (le_max_left 0 _) hbr
        rcases br with ⟨th, rate⟩
        cases th with
        | none => simpa using h1
        | some t =>
          have h2 := trinnskattGo_nonneg b rest hrest t
          simp only at h1 h2 ⊢
          linarith
      · rw [if_neg ha]
        have hcap := bracketCap_mono hab br.threshold
        have h1 : max 0 (bracketCap a br.threshold - prev) * br.rate ≤
            max 0 (bracketCap b br.threshold - prev) * br.rate :=
          mul_le_mul_of_nonneg_right
            (max_le_max (le_refl 0) (sub_le_sub_right hcap prev)) hbr
        rcases br with ⟨th, rate⟩
        cases th with
        | none => simpa using h1
        | some t =>
          have h2 := ih hrest t
          simp only at h1 h2 ⊢
          linarith

lemma calculateTrinnskatt_nonneg_2026 (a : ℚ) :
    0 ≤ calculateTrinnskatt a rates2026.trinnskatt :=
  trinnskattGo_nonneg a rates2026.trinnskatt rates2026_trinnskatt_rate_nonneg 0

lemma calculateTrinnskatt_mono_2026 {a b : ℚ} (hab : a ≤ b) :
    calculateTrinnskatt a rates2026.trinnskatt ≤ calculateTrinnskatt b rates2026.trinnskatt :=
  trinnskattGo_mono hab rates2026.trinnskatt rates2026_trinnskatt_rate_nonneg 0

lemma trygdeavgiftFor_nonneg (r : TaxRates) (hrate : 0 ≤ r.trygdeavgift.rate)
    {g : ℚ} (hg : 0 ≤ g) : 0 ≤ trygdeavgiftFor r g := by
  unfold trygdeavgiftFor
  split
  · exact mul_nonneg hg hrate
  · exact le_refl 0

lemma trygdeavgiftFor_mono (r : TaxRates) (hrate : 0 ≤ r.trygdeavgift.rate)
    (hthr : 0 ≤ r.trygdeavgift.threshold) {a b : ℚ} (hab : a ≤ b) :
    trygdeavgiftFor r a ≤ trygdeavgiftFor r b := by
  unfold trygdeavgiftFor
  by_cases ha : r.trygdeavgift.threshold < a
  · rw [if_pos ha, if_pos (lt_of_lt_of_le ha hab)]
    exact mul_le_mul_of_nonneg_right hab hrate
  · rw [if_neg ha]
    by_cases hb : r.trygdeavgift.threshold < b
    · rw [if_pos hb]
      exact mul_nonneg (le_of_lt (lt_of_le_of_lt hthr hb)) hrate
    · rw [if_neg hb]

lemma sub_minstefradragFor_mono (r : TaxRates) (h0 : 0 ≤ r.minstefradrag.rate)
    (h1 : r.minstefradrag.rate ≤ 1) {a b : ℚ} (hab : a ≤ b) :
    a - minstefradragFor r a ≤ b - minstefradragFor r b := by
  unfold minstefradragFor
  have hd : 0 ≤ (b - a) * r.minstefradrag.rate := mul_nonneg (by linarith) h0
  have hmax : max (b * r.minstefradrag.rate) r.minstefradrag.min ≤
      max (a * r.minstefradrag.rate) r.minstefradrag.min + (b - a) * r.minstefradrag.rate := by
    apply max_le
    · have : b * r.minstefradrag.rate =
          a * r.minstefradrag.rate + (b - a) * r.minstefradrag.rate := by ring
      rw [this]
      exact add_le_add_right (le_max_left _ _) _
    · exact le_add_of_le_of_nonneg (le_max_right _ _) hd
  have hmin : min (max (b * r.minstefradrag.rate) r.minstefradrag.min) r.minstefradrag.max ≤
      min (max (a * r.minstefradrag.rate) r.minstefradrag.min) r.minstefradrag.max +
        (b - a) * r.minstefradrag.rate := by
    calc min (max (b * r.minstefradrag.rate) r.minstefradrag.min) r.minstefradrag.max
        ≤ min (max (a * r.minstefradrag.rate) r.minstefradrag.min +
            (b - a) * r.minstefradrag.rate) (r.minstefradrag.max + (b - a) * r.minstefradrag.rate) :=
          min_le_min hmax (le_add_of_le_of_nonneg (le_refl _) hd)
      _ = min (max (a * r.minstefradrag.rate) r.minstefradrag.min) r.minstefradrag.max +
            (b - a) * r.minstefradrag.rate := by
          rw [min_add_add_right]
  have hrate_bound : (b - a) * r.minstefradrag.rate ≤ b - a := by
    have := mul_le_of_le_one_right (a := b - a) (by linarith) h1
    linarith
  linarith

lemma alminneligInntektFor_mono (r : TaxRates) (ti : TableInfo)
    (h0 : 0 ≤ r.minstefradrag.rate) (h1 : r.minstefradrag.rate ≤ 1)
    {a b : ℚ} (hab : a ≤ b) :
    alminneligInntektFor r ti a ≤ alminneligInntektFor r ti b := by
  unfold alminneligInntektFor
  apply max_le_max (le_refl 0)
  have := sub_minstefradragFor_mono r h0 h1 hab
  linarith

lemma annualTaxFor_mono_2026 (ti : TableInfo) {a b : ℚ} (hab : a ≤ b) :
    annualTaxFor rates2026 ti a ≤ annualTaxFor rates2026 ti b := by
  unfold annualTaxFor
  have h1 := calculateTrinnskatt_mono_2026 hab
  have h2 := trygdeavgiftFor_mono rates2026 (by norm_num [rates2026]) (by norm_num [rates2026]) hab
  have h3 := alminneligInntektFor_mono rates2026 ti (by norm_num [rates2026]) (by norm_num [rates2026]) hab
  have h4 : alminneligInntektFor rates2026 ti a * rates2026.alminneligInntekt.rate ≤
      alminneligInntektFor rates2026 ti b * rates2026.alminneligInntekt.rate :=
    mul_le_mul_of_nonneg_right h3 (by norm_num [rates2026])
  linarith

lemma annualTaxFor_nonneg_2026 (ti : TableInfo) {g : ℚ} (hg : 0 ≤ g) :
    0 ≤ annualTaxFor rates2026 ti g := by
  unfold annualTaxFor
  have h1 := calculateTrinnskatt_nonneg_2026 g
  have h2 := trygdeavgiftFor_nonneg rates2026 (by norm_num [rates2026]) hg
  have h3 : 0 ≤ alminneligInntektFor rates2026 ti g * rates2026.alminneligInntekt.rate :=
    mul_nonneg (le_max_left 0 _) (by norm_num [rates2026])
  linarith

lemma annualTaxFor_cancel (r : TaxRates) (i1 i2 : TableInfo) (g1 g2 : ℚ)
    (h11 : 0 ≤ g1 - minstefradragFor r g1 - r.personfradrag + tableAdjustment i1)
    (h12 : 0 ≤ g2 - minstefradragFor r g2 - r.personfradrag + tableAdjustment i1)
    (h21 : 0 ≤ g1 - minstefradragFor r g1 - r.personfradrag + tableAdjustment i2)
    (h22 : 0 ≤ g2 - minstefradragFor r g2 - r.personfradrag + tableAdjustment i2) :
    annualTaxFor r i1 g2 - annualTaxFor r i1 g1 =
      annualTaxFor r i2 g2 - annualTaxFor r i2 g1 := by
  unfold annualTaxFor alminneligInntektFor
  rw [max_eq_right h11, max_eq_right h12, max_eq_right h21, max_eq_right h22]
  ring

lemma overtime_takeHome_map_eq (s h : ℚ) {n : ℤ} {ti : TableInfo}
    (ht : parseTableNumber n = some ti) :
    Except.map OvertimeResult.takeHome (calculateOvertimeTakeHome s h n 2026) =
      Except.ok (round2 (h * (s / 1950 * 1.4) -
        (annualTaxFor rates2026 ti (s + h * (s / 1950 * 1.4)) -
          annualTaxFor rates2026 ti s))) := by
  simp [calculateOvertimeTakeHome, calculateMonthlyWithholding, calculateAnnualTax,
    getTaxRates, ht, Except.map, Except.bind, bind, pure, Except.pure]

/-! ## Claim theorems -/

/-- C3: for every fixed table code and supported tax year,
`calculateMonthlyWithholding` is non-decreasing in its monthly gross income
argument: if `a ≤ b` and both calls succeed, the withholding at `a` is at
most the withholding at `b`. -/
theorem C3_monthlyWithholding_monotone :
    ∀ (a b : ℚ) (tableNumber : ℤ) (taxYear : ℕ) (w1 w2 : ℚ),
      a ≤ b →
      calculateMonthlyWithholding a tableNumber taxYear = Except.ok w1 →
      calculateMonthlyWithholding b tableNumber taxYear = Except.ok w2 →
      w1 ≤ w2 := by
  intro a b n y w1 w2 hab h1 h2
  unfold calculateMonthlyWithholding at h1 h2
  cases hy : getTaxRates y with
  | none => rw [hy] at h1; exact absurd h1 (by simp)
  | some r =>
    rw [hy] at h1 h2
    cases ht : parseTableNumber n with
    | none => rw [ht] at h1; exact absurd h1 (by simp)
    | some ti =>
      rw [ht] at h1 h2
      obtain ⟨-, rfl⟩ := getTaxRates_inv hy
      have e1 := (Except.ok.injEq _ _).mp h1
      have e2 := (Except.ok.injEq _ _).mp h2
      rw [← e1, ← e2]
      have hmono := annualTaxFor_mono_2026 ti (mul_le_mul_of_nonneg_right hab (by norm_num : (0:ℚ) ≤ 12))
      exact (div_le_div_iff_of_pos_right (by norm_num [rates2026])).mpr hmono

/-- Witness for C3 at monthly gross 0 and 75,000, table 8100, year 2026. -/
theorem C3_monthlyWithholding_monotone_witness :
    (0:ℚ) ≤ 75000 ∧
    calculateMonthlyWithholding 0 8100 2026 = Except.ok 0 ∧
    calculateMonthlyWithholding 75000 8100 2026 = Except.ok (1600169/70) ∧
    (0:ℚ) ≤ 1600169/70 :=
  ⟨by norm_num, by with_unfolding_all rfl, by with_unfolding_all rfl,
    C3_monthlyWithholding_monotone 0 75000 8100 2026 0 (1600169/70) (by norm_num)
      (by with_unfolding_all rfl) (by with_unfolding_all rfl)⟩

/-- C4: `parseTableNumber` is total on the integers: codes 8000-8400 parse
as fradrag with amount `(code - 8000) * 1000`, codes 9010-9400 parse as
tillegg with amount `(code - 9000) * 1000` (so 9000-9009 are invalid), and
every other integer yields `none`. -/
theorem C4_parseTableNumber_total : ∀ n : ℤ,
    (8000 ≤ n ∧ n ≤ 8400 →
      parseTableNumber n = some ⟨TableKind.fradrag, ((n - 8000 : ℤ) : ℚ) * 1000⟩) ∧
    (9010 ≤ n ∧ n ≤ 9400 →
      parseTableNumber n = some ⟨TableKind.tillegg, ((n - 9000 : ℤ) : ℚ) * 1000⟩) ∧
    (¬(8000 ≤ n ∧ n ≤ 8400) → ¬(9010 ≤ n ∧ n ≤ 9400) → parseTableNumber n = none) := by
  intro n
  refine ⟨fun h => ?_, fun h => ?_, fun h1 h2 => ?_⟩
  · unfold parseTableNumber
    rw [if_pos h]
  · unfold parseTableNumber
    rw [if_neg (by omega), if_pos h]
  · unfold parseTableNumber
    rw [if_neg h1, if_neg h2]

/-- Witness for C4 at code 8115 (fradrag band). -/
theorem C4_parseTableNumber_total_witness :
    parseTableNumber 8115 = some ⟨TableKind.fradrag, ((8115 - 8000 : ℤ) : ℚ) * 1000⟩ :=
  (C4_parseTableNumber_total 8115).1 ⟨by norm_num, by norm_num⟩

/-- C6: for a table code outside both bands every engine entry point fails
with `invalidTableCode`, and for a tax year with no registered rate table
every entry point fails with `unsupportedYear`; no partial result is
returned in either case. -/
theorem C6_fail_fast : ∀ (g hours : ℚ) (n : ℤ) (y : ℕ),
    (parseTableNumber n = none →
      calculateMonthlyWithholding g n 2026 = Except.error CalcError.invalidTableCode ∧
      calculateAnnualTax g n 2026 = Except.error CalcError.invalidTableCode ∧
      calculateOvertimeTakeHome g hours n 2026 = Except.error CalcError.invalidTableCode) ∧
    (getTaxRates y = none →
      calculateMonthlyWithholding g n y = Except.error CalcError.unsupportedYear ∧
      calculateAnnualTax g n y = Except.error CalcError.unsupportedYear ∧
      calculateOvertimeTakeHome g hours n y = Except.error CalcError.unsupportedYear) := by
  intro g hours n y
  constructor
  · intro h
    refine ⟨?_, ?_, ?_⟩ <;>
      simp [calculateMonthlyWithholding, calculateAnnualTax, calculateOvertimeTakeHome,
        getTaxRates, h, Except.bind, bind]
  · intro h
    refine ⟨?_, ?_, ?_⟩ <;>
      simp [calculateMonthlyWithholding, calculateAnnualTax, calculateOvertimeTakeHome, h,
        Except.bind, bind]

/-- Witness for C6 at code 7150 (outside both bands) and year 2025 (not
registered). -/
theorem C6_fail_fast_witness :
    (calculateMonthlyWithholding 500 7150 2026 = Except.error CalcError.invalidTableCode ∧
     calculateAnnualTax 500 7150 2026 = Except.error CalcError.invalidTableCode ∧
     calculateOvertimeTakeHome 500 2 7150 2026 = Except.error CalcError.invalidTableCode) ∧
    (calculateMonthlyWithholding 500 7150 2025 = Except.error CalcError.unsupportedYear ∧
     calculateAnnualTax 500 7150 2025 = Except.error CalcError.unsupportedYear ∧
     calculateOvertimeTakeHome 500 2 7150 2025 = Except.error CalcError.unsupportedYear) :=
  ⟨(C6_fail_fast 500 2 7150 2025).1 (by with_unfolding_all rfl),
   (C6_fail_fast 500 2 7150 2025).2 (by with_unfolding_all rfl)⟩

/-- C9 (implicit): for gross income ≥ 0, a valid table code and a supported
tax year, each tax component (bracket tax, national insurance, general
income tax on the floored base) is non-negative, and both
`calculateAnnualTax` and `calculateMonthlyWithholding` return non-negative
values. -/
theorem C9_nonneg : ∀ (g : ℚ) (n : ℤ) (y : ℕ) (r : TaxRates) (ti : TableInfo),
    0 ≤ g → getTaxRates y = some r → parseTableNumber n = some ti →
    0 ≤ calculateTrinnskatt g r.trinnskatt ∧
    0 ≤ trygdeavgiftFor r g ∧
    0 ≤ alminneligInntektFor r ti g * r.alminneligInntekt.rate ∧
    calculateAnnualTax g n y = Except.ok (annualTaxFor r ti g) ∧
    0 ≤ annualTaxFor r ti g ∧
    calculateMonthlyWithholding g n y =
      Except.ok (annualTaxFor r ti (g * 12) / r.withholdingMonths) ∧
    0 ≤ annualTaxFor r ti (g * 12) / r.withholdingMonths := by
  intro g n y r ti hg hy ht
  obtain ⟨rfl, rfl⟩ := getTaxRates_inv hy
  exact ⟨calculateTrinnskatt_nonneg_2026 g,
    trygdeavgiftFor_nonneg rates2026 (by norm_num [rates2026]) hg,
    mul_nonneg (le_max_left 0 _) (by norm_num [rates2026]),
    calculateAnnualTax_ok g ht,
    annualTaxFor_nonneg_2026 ti hg,
    calculateMonthlyWithholding_ok g ht,
    div_nonneg (annualTaxFor_nonneg_2026 ti (by linarith)) (by norm_num [rates2026])⟩

/-- Witness for C9 at monthly/annual gross 75,000, table 8100, year 2026. -/
theorem C9_nonneg_witness :
    0 ≤ calculateTrinnskatt 75000 rates2026.trinnskatt ∧
    0 ≤ trygdeavgiftFor rates2026 75000 ∧
    0 ≤ alminneligInntektFor rates2026 ⟨TableKind.fradrag, 100000⟩ 75000 *
      rates2026.alminneligInntekt.rate ∧
    calculateAnnualTax 75000 8100 2026 =
      Except.ok (annualTaxFor rates2026 ⟨TableKind.fradrag, 100000⟩ 75000) ∧
    0 ≤ annualTaxFor rates2026 ⟨TableKind.fradrag, 100000⟩ 75000 ∧
    calculateMonthlyWithholding 75000 8100 2026 =
      Except.ok (annualTaxFor rates2026 ⟨TableKind.fradrag, 100000⟩ (75000 * 12) /
        rates2026.withholdingMonths) ∧
    0 ≤ annualTaxFor rates2026 ⟨TableKind.fradrag, 100000⟩ (75000 * 12) /
      rates2026.withholdingMonths :=
  C9_nonneg 75000 8100 2026 rates2026 ⟨TableKind.fradrag, 100000⟩ (by norm_num)
    (by with_unfolding_all rfl) (by with_unfolding_all rfl)

/-- C10 (implicit): at monthly gross income 0, an addition-band table code
whose amount exceeds the minimum standard deduction plus the personal
allowance yields a strictly positive monthly withholding. -/
theorem C10_zero_income_addition_tax : ∀ (n : ℤ) (ti : TableInfo) (w : ℚ),
    parseTableNumber n = some ti → ti.type = TableKind.tillegg →
    rates2026.minstefradrag.min + rates2026.personfradrag < ti.amount →
    calculateMonthlyWithholding 0 n 2026 = Except.ok w → 0 < w := by
  intro n ti w ht htype hamt hw
  rw [calculateMonthlyWithholding_ok 0 ht] at hw
  have hw' : w = annualTaxFor rates2026 ti (0 * 12) / rates2026.withholdingMonths :=
    ((Except.ok.injEq _ _).mp hw).symm
  subst hw'
  have h0 : (0:ℚ) * 12 = 0 := by norm_num
  rw [h0]
  have hadj : tableAdjustment ti = ti.amount := by
    simp only [tableAdjustment, htype]
  have hmf : minstefradragFor rates2026 0 = 4000 := by with_unfolding_all rfl
  have h1 : calculateTrinnskatt 0 rates2026.trinnskatt = 0 := by with_unfolding_all rfl
  have h2 : trygdeavgiftFor rates2026 0 = 0 := by with_unfolding_all rfl
  have hpf : rates2026.personfradrag = 114210 := by norm_num [rates2026]
  have hmin : rates2026.minstefradrag.min = 4000 := by norm_num [rates2026]
  rw [hmin, hpf] at hamt
  have h3 : 0 < alminneligInntektFor rates2026 ti 0 := by
    unfold alminneligInntektFor
    rw [hmf, hadj, hpf]
    have hx : 0 < 0 - 4000 - 114210 + ti.amount := by linarith
    exact lt_of_lt_of_le hx (le_max_right _ _)
  have h4 : 0 < alminneligInntektFor rates2026 ti 0 * rates2026.alminneligInntekt.rate :=
    mul_pos h3 (by norm_num [rates2026])
  unfold annualTaxFor
  rw [h1, h2]
  apply div_pos
  · linarith
  · norm_num [rates2026]

/-- Witness for C10 at code 9400 (amount 400,000 > 4,000 + 114,210). -/
theorem C10_zero_income_addition_tax_witness :
    parseTableNumber 9400 = some ⟨TableKind.tillegg, 400000⟩ ∧
    rates2026.minstefradrag.min + rates2026.personfradrag < (400000 : ℚ) ∧
    calculateMonthlyWithholding 0 9400 2026 = Except.ok (206646/35) ∧
    (0:ℚ) < 206646/35 :=
  ⟨by with_unfolding_all rfl, by norm_num [rates2026], by with_unfolding_all rfl,
    C10_zero_income_addition_tax 9400 ⟨TableKind.tillegg, 400000⟩ (206646/35)
      (by with_unfolding_all rfl) rfl (by norm_num [rates2026])
      (by with_unfolding_all rfl)⟩

lemma overtime_takeHome_cancel (s h : ℚ) (t1 t2 : ℤ) (i1 i2 : TableInfo)
    (h1 : parseTableNumber t1 = some i1) (h2 : parseTableNumber t2 = some i2)
    (hfloor : ∀ i, (i = i1 ∨ i = i2) →
      ∀ g, (g = s ∨ g = s + h * (s / 1950 * 1.4)) →
      0 ≤ g - minstefradragFor rates2026 g - rates2026.personfradrag + tableAdjustment i) :
    Except.map OvertimeResult.takeHome (calculateOvertimeTakeHome s h t1 2026) =
      Except.map OvertimeResult.takeHome (calculateOvertimeTakeHome s h t2 2026) := by
  rw [overtime_takeHome_map_eq s h h1, overtime_takeHome_map_eq s h h2]
  have hc := annualTaxFor_cancel rates2026 i1 i2 s (s + h * (s / 1950 * 1.4))
    (hfloor i1 (Or.inl rfl) s (Or.inl rfl))
    (hfloor i1 (Or.inl rfl) (s + h * (s / 1950 * 1.4)) (Or.inr rfl))
    (hfloor i2 (Or.inr rfl) s (Or.inl rfl))
    (hfloor i2 (Or.inr rfl) (s + h * (s / 1950 * 1.4)) (Or.inr rfl))
  have harg : h * (s / 1950 * 1.4) -
        (annualTaxFor rates2026 i1 (s + h * (s / 1950 * 1.4)) - annualTaxFor rates2026 i1 s) =
      h * (s / 1950 * 1.4) -
        (annualTaxFor rates2026 i2 (s + h * (s / 1950 * 1.4)) - annualTaxFor rates2026 i2 s) := by
    rw [hc]
  rw [harg]

/-- C1: the table adjustment is a constant offset added identically to both
terms of the actual-tax marginal difference, so whenever the
`max(0, ...)` floor on taxable general income is not reached, the actual
take-home of `calculateOvertimeTakeHome` is independent of the table code;
in particular at annual salary 750,000, 10 overtime hours and tax year
2026 every pair of valid table codes (either band) yields the identical
`takeHome` value. -/
theorem C1_table_code_cancellation :
    (∀ (yearlySalary overtimeHours : ℚ) (t1 t2 : ℤ) (i1 i2 : TableInfo),
      parseTableNumber t1 = some i1 → parseTableNumber t2 = some i2 →
      (∀ i, (i = i1 ∨ i = i2) →
        ∀ g, (g = yearlySalary ∨ g = yearlySalary + overtimeHours * (yearlySalary / 1950 * 1.4)) →
        0 ≤ g - minstefradragFor rates2026 g - rates2026.personfradrag + tableAdjustment i) →
      Except.map OvertimeResult.takeHome
          (calculateOvertimeTakeHome yearlySalary overtimeHours t1 2026) =
        Except.map OvertimeResult.takeHome
          (calculateOvertimeTakeHome yearlySalary overtimeHours t2 2026)) ∧
    (∀ (t1 t2 : ℤ) (i1 i2 : TableInfo),
      parseTableNumber t1 = some i1 → parseTableNumber t2 = some i2 →
      Except.map OvertimeResult.takeHome (calculateOvertimeTakeHome 750000 10 t1 2026) =
        Except.map OvertimeResult.takeHome (calculateOvertimeTakeHome 750000 10 t2 2026)) := by
  constructor
  · intro s h t1 t2 i1 i2 h1 h2 hfloor
    exact overtime_takeHome_cancel s h t1 t2 i1 i2 h1 h2 hfloor
  · intro t1 t2 i1 i2 h1 h2
    apply overtime_takeHome_cancel 750000 10 t1 t2 i1 i2 h1 h2
    intro i hi g hg
    have hb : -400000 ≤ tableAdjustment i := by
      rcases hi with rfl | rfl
      · exact (tableAdjustment_bounds h1).1
      · exact (tableAdjustment_bounds h2).1
    have hpf : rates2026.personfradrag = 114210 := by norm_num [rates2026]
    rcases hg with rfl | rfl
    · have hmf : minstefradragFor rates2026 750000 = 95700 := by with_unfolding_all rfl
      rw [hmf, hpf]
      linarith
    · have hmf : minstefradragFor rates2026 (750000 + 10 * ((750000 : ℚ) / 1950 * 1.4)) = 95700 := by
        with_unfolding_all rfl
      rw [hmf, hpf]
      have hgp : (0:ℚ) ≤ 10 * ((750000 : ℚ) / 1950 * 1.4) := by norm_num
      linarith

/-- Witness for C1 at salary 750,000, 10 hours, table codes 8115 and 9115. -/
theorem C1_table_code_cancellation_witness :
    Except.map OvertimeResult.takeHome (calculateOvertimeTakeHome 750000 10 8115 2026) =
      Except.map OvertimeResult.takeHome (calculateOvertimeTakeHome 750000 10 9115 2026) :=
  C1_table_code_cancellation.2 8115 9115 ⟨TableKind.fradrag, 115000⟩ ⟨TableKind.tillegg, 115000⟩
    (by with_unfolding_all rfl) (by with_unfolding_all rfl)

/-- C2 (code evidence): at the repo's own test scenario the returned
object's `withholding − actualTax` — the value the tests and the popup
expect in an `estimatedRefund` field — is 399.69, yet the source returns
no such field. -/
theorem C2_estimatedRefund_value :
    ∃ r : OvertimeResult, calculateOvertimeTakeHome 900000 10 8115 2026 = Except.ok r ∧
      r.withholding - r.actualTax = 39969/100 ∧ 0 < r.withholding - r.actualTax := by
  refine ⟨⟨323077/50, 23077/50, 12923/20, 55957/20, 366369/100, 433/1000, 159877/50, 3264, 99/200⟩,
    by with_unfolding_all rfl, by norm_num, by norm_num⟩

/-- C5 counterexample: the scenario's gross overtime pay is 6461.54, more
than 700 NOK below the claimed ≈ 7179.49. -/
theorem C5_grossPay_counterexample :
    Except.map OvertimeResult.grossPay (calculateOvertimeTakeHome 900000 10 8115 2026) =
      Except.ok (323077/50) ∧ (323077 : ℚ)/50 + 700 < 7179.49 :=
  ⟨by with_unfolding_all rfl, by norm_num⟩

/-- C5 (amended): at annualSalary 900,000, 10 overtime hours, table 8115,
year 2026, the result has grossPay = 6461.54 (1950-hour year, 1.4×
premium), strictly positive actual and withholding take-home, actual
take-home strictly above withholding take-home, and actual effective rate
within [0.30, 0.55]. -/
theorem C5_scenario_amended :
    ∃ r : OvertimeResult, calculateOvertimeTakeHome 900000 10 8115 2026 = Except.ok r ∧
      r.grossPay = 6461.54 ∧ 0 < r.takeHome ∧ 0 < r.takeHomeWithholding ∧
      r.takeHomeWithholding < r.takeHome ∧ 0.30 ≤ r.effectiveRate ∧ r.effectiveRate ≤ 0.55 := by
  refine ⟨⟨323077/50, 23077/50, 12923/20, 55957/20, 366369/100, 433/1000, 159877/50, 3264, 99/200⟩,
    by with_unfolding_all rfl, by norm_num, by norm_num, by norm_num, by norm_num,
    by norm_num, by norm_num⟩

/-- C7 counterexample: at monthly gross 0 the deduction code 8115 and the
comparable-magnitude addition code 9115 (both amount 115,000) yield the
same withholding (both 0), so the deduction code is not strictly lower. -/
theorem C7_strict_ordering_counterexample :
    parseTableNumber 8115 = some ⟨TableKind.fradrag, 115000⟩ ∧
    parseTableNumber 9115 = some ⟨TableKind.tillegg, 115000⟩ ∧
    calculateMonthlyWithholding 0 8115 2026 = Except.ok 0 ∧
    calculateMonthlyWithholding 0 9115 2026 = Except.ok 0 ∧
    ¬((0:ℚ) < 0) :=
  ⟨by with_unfolding_all rfl, by with_unfolding_all rfl, by with_unfolding_all rfl,
   by with_unfolding_all rfl, lt_irrefl 0⟩

/-- C7 (amended): holding monthly gross income fixed, a deduction-band
code yields strictly lower `calculateMonthlyWithholding` than any
addition-band code whenever the addition code's (annualized) taxable
general income is positive, i.e. whenever the `max(0, ...)` floor is not
active for the addition term. -/
theorem C7_deduction_lt_addition :
    ∀ (g : ℚ) (d t : ℤ) (di ti : TableInfo) (wd wt : ℚ),
      parseTableNumber d = some di → di.type = TableKind.fradrag →
      parseTableNumber t = some ti → ti.type = TableKind.tillegg →
      0 < g * 12 - minstefradragFor rates2026 (g * 12) - rates2026.personfradrag + ti.amount →
      calculateMonthlyWithholding g d 2026 = Except.ok wd →
      calculateMonthlyWithholding g t 2026 = Except.ok wt →
      wd < wt := by
  intro g d t di ti wd wt hd hdty ht htty hpos hwd hwt
  rw [calculateMonthlyWithholding_ok g hd] at hwd
  rw [calculateMonthlyWithholding_ok g ht] at hwt
  have ewd : wd = annualTaxFor rates2026 di (g * 12) / rates2026.withholdingMonths :=
    ((Except.ok.injEq _ _).mp hwd).symm
  have ewt : wt = annualTaxFor rates2026 ti (g * 12) / rates2026.withholdingMonths :=
    ((Except.ok.injEq _ _).mp hwt).symm
  subst ewd
  subst ewt
  have hA : 0 ≤ di.amount := fradrag_amount_nonneg hd hdty
  have hB : 10000 ≤ ti.amount := tillegg_amount_pos ht htty
  have hadj_d : tableAdjustment di = -di.amount := by simp only [tableAdjustment, hdty]
  have hadj_t : tableAdjustment ti = ti.amount := by simp only [tableAdjustment, htty]
  apply (div_lt_div_iff_of_pos_right (show (0:ℚ) < rates2026.withholdingMonths by
    norm_num [rates2026])).mpr
  unfold annualTaxFor
  have halm : alminneligInntektFor rates2026 di (g * 12) <
      alminneligInntektFor rates2026 ti (g * 12) := by
    unfold alminneligInntektFor
    rw [hadj_d, hadj_t]
    rw [max_eq_right (le_of_lt hpos)]
    apply max_lt hpos
    linarith
  have hmul : alminneligInntektFor rates2026 di (g * 12) * rates2026.alminneligInntekt.rate <
      alminneligInntektFor rates2026 ti (g * 12) * rates2026.alminneligInntekt.rate :=
    mul_lt_mul_of_pos_right halm (by norm_num [rates2026])
  linarith

/-- Witness for C7 (amended) at monthly gross 75,000, codes 8115 vs 9115. -/
theorem C7_deduction_lt_addition_witness :
    parseTableNumber 8115 = some ⟨TableKind.fradrag, 115000⟩ ∧
    parseTableNumber 9115 = some ⟨TableKind.tillegg, 115000⟩ ∧
    (0:ℚ) < 75000 * 12 - minstefradragFor rates2026 (75000 * 12) -
      rates2026.personfradrag + 115000 ∧
    calculateMonthlyWithholding 75000 8115 2026 = Except.ok (1578169/70) ∧
    calculateMonthlyWithholding 75000 9115 2026 = Except.ok (5746507/210) ∧
    (1578169:ℚ)/70 < 5746507/210 :=
  ⟨by with_unfolding_all rfl, by with_unfolding_all rfl,
   by with_unfolding_all exact of_decide_eq_true rfl,
   by with_unfolding_all rfl, by with_unfolding_all rfl,
   C7_deduction_lt_addition 75000 8115 9115 ⟨TableKind.fradrag, 115000⟩
     ⟨TableKind.tillegg, 115000⟩ (1578169/70) (5746507/210)
     (by with_unfolding_all rfl) rfl (by with_unfolding_all rfl) rfl
     (by with_unfolding_all exact of_decide_eq_true rfl)
     (by with_unfolding_all rfl) (by with_unfolding_all rfl)⟩

lemma ite_singleton_eq_nil (c : Prop) [Decidable c] (m : String) :
    ((if c then [m] else []) = ([] : List String)) ↔ ¬c := by
  split_ifs with hc <;> simp [hc]

/-- C8 counterexample: with every other check passing, overtime hours 250
(> 200) makes `valid` false — the high-hours message is pushed into the
same `errors` list that `valid` tests — while 10 hours validates. -/
theorem C8_high_hours_counterexample :
    (validateParameters (some 600000) (some 250) 8115 (some 2026)).valid = false ∧
    (validateParameters (some 600000) (some 250) 8115 (some 2026)).errors =
      ["Overtime hours seems unusually high (>200 hours)"] ∧
    (validateParameters (some 600000) (some 10) 8115 (some 2026)).valid = true :=
  ⟨by with_unfolding_all rfl, by with_unfolding_all rfl, by with_unfolding_all rfl⟩

/-- C8 (amended): `validateParameters` returns `valid = true` exactly when
the salary lies in [100,000, 5,000,000], the overtime hours lie in
[0, 200] (hours above 200 are flagged with a message in `errors` and that
flag rejects, since `valid` is `errors.length === 0`), the table code
parses, and the tax year is 0 (skipped) or registered. -/
theorem C8_validateParameters_contract :
    ∀ (s h : ℚ) (tn : ℤ) (y : ℕ),
      (validateParameters (some s) (some h) tn (some y)).valid = true ↔
        (100000 ≤ s ∧ s ≤ 5000000 ∧ 0 ≤ h ∧ h ≤ 200 ∧
          parseTableNumber tn ≠ none ∧ (y = 0 ∨ getTaxRates y ≠ none)) := by
  intro s h tn y
  cases hp : parseTableNumber tn with
  | none =>
    simp [validateParameters, hp, List.isEmpty_eq_true, List.append_eq_nil,
      ite_singleton_eq_nil, not_or, not_lt]
  | some ti =>
    simp only [validateParameters, hp, List.isEmpty_eq_true, List.append_eq_nil,
      ite_singleton_eq_nil, not_or, not_lt]
    tauto
